import Mathlib

/-!
Verification development for the FireAlert repository.

Shallow embedding of the core of `fire_detection_system.py` (the per-frame
fire decision `detect_fire`, the notifier gate `send_email_alert`, the
`run` loop step) and of the debounced alert callback of `app.py`
(`video_frame_callback`).

Modelling conventions:
- images are total functions from (row, column) to pixel values:
  a 3-channel BGR/HSV image is `Img3`, a single-channel mask is `Mask`;
- timestamps (`time.time()`) are integers `Int`;
- external OpenCV routines whose pixel-level numerics no property depends
  on (color-space conversion, morphological open/close, gray conversion)
  are fields of a collaborator structure `CV` that the definitions take as
  a parameter;
- the YOLO collaborator `self.model(frame, conf=...)` is a function
  returning `Except Unit (List Box)`: `Except.error` models the call
  raising an exception;
- presentation-only side effects (cv2 drawing, labels) are omitted.
-/

namespace FireAlert

/-- A 3-channel image: (row, col) ↦ (c1, c2, c3), each channel a natural
number (0..255 in practice). -/
def Img3 : Type := Nat → Nat → Nat × Nat × Nat

/-- A single-channel image / binary mask: (row, col) ↦ value. -/
def Mask : Type := Nat → Nat → Nat

/-- The all-zero mask, `np.zeros(frame.shape[:2], dtype=np.uint8)`. -/
def zeroMask : Mask := fun _ _ => 0

/-- `cv2.bitwise_or` on single-channel images: pixelwise bitwise or. -/
def bitwiseOr (a b : Mask) : Mask := fun y x => Nat.lor (a y x) (b y x)

/-- `cv2.bitwise_and` on single-channel images: pixelwise bitwise and. -/
def bitwiseAnd (a b : Mask) : Mask := fun y x => Nat.land (a y x) (b y x)

/-- `cv2.absdiff` on 3-channel images: pixelwise, channelwise absolute
difference. -/
def absdiff3 (a b : Img3) : Img3 := fun y x =>
  (((a y x).1 : Int) - ((b y x).1 : Int) |>.natAbs,
   ((a y x).2.1 : Int) - ((b y x).2.1 : Int) |>.natAbs,
   ((a y x).2.2 : Int) - ((b y x).2.2 : Int) |>.natAbs)

/-- `cv2.threshold(img, t, 255, cv2.THRESH_BINARY)`: 255 where the pixel
value is strictly above `t`, else 0. -/
def thresholdBin (t : Nat) (img : Mask) : Mask := fun y x =>
  if t < img y x then 255 else 0

/-- `cv2.inRange(hsv, lower, upper)` for 3-channel images: 255 where every
channel lies within its (inclusive) bounds, else 0. -/
def inRangeMask (img : Img3) (lo hi : Nat × Nat × Nat) : Mask := fun y x =>
  if lo.1 ≤ (img y x).1 ∧ (img y x).1 ≤ hi.1 ∧
     lo.2.1 ≤ (img y x).2.1 ∧ (img y x).2.1 ≤ hi.2.1 ∧
     lo.2.2 ≤ (img y x).2.2 ∧ (img y x).2.2 ≤ hi.2.2
  then 255 else 0

/-- External OpenCV collaborator routines used by `detect_fire` whose
internal numerics no verified property depends on: `cv2.cvtColor(·,
COLOR_BGR2HSV)`, `cv2.morphologyEx(·, MORPH_OPEN, kernel)` and
`(·, MORPH_CLOSE, kernel)` with the fixed 3×3 kernel, and
`cv2.cvtColor(·, COLOR_BGR2GRAY)`.  The definitions below are
parameterized over this structure, so every theorem holds for every
behavior of these library calls. -/
structure CV where
  cvtHSV : Img3 → Img3
  morphOpen : Mask → Mask
  morphClose : Mask → Mask
  cvtGray : Img3 → Mask

/-- The expanded fire color ranges of `FireDetectionSystem.__init__`
(red/orange, yellow, bright white/yellow), each as (lower, upper) HSV
bounds. -/
def fire_ranges : List ((Nat × Nat × Nat) × (Nat × Nat × Nat)) :=
  [((0, 30, 180), (15, 255, 255)),
   ((16, 50, 180), (35, 255, 255)),
   ((0, 0, 200), (180, 80, 255))]

/-- The fire-color mask of `detect_fire`: convert to HSV, OR the
`inRange` results of all configured fire color ranges into one mask,
then morphological open and close. -/
def fireColorMask (cv : CV) (frame : Img3) : Mask :=
  let hsv := cv.cvtHSV frame
  let m := fire_ranges.foldl (fun acc r => bitwiseOr acc (inRangeMask hsv r.1 r.2)) zeroMask
  cv.morphClose (cv.morphOpen m)

/-- The motion step of `detect_fire`: when a previous frame exists,
threshold the grayscale absolute difference at 25 and AND the resulting
motion mask with the fire-color mask; otherwise use the fire-color mask
unchanged. -/
def motionCombine (cv : CV) (fireMask : Mask) (frame : Img3) (prev : Option Img3) : Mask :=
  match prev with
  | some p => bitwiseAnd fireMask (thresholdBin 25 (cv.cvtGray (absdiff3 frame p)))
  | none => fireMask

/-- The Color-Motion Segmenter (spec §4.1): the combined mask computed by
lines 74–91 of `detect_fire` as a function of the frame and the optional
previous frame. -/
def segment (cv : CV) (frame : Img3) (prev : Option Img3) : Mask :=
  motionCombine cv (fireColorMask cv frame) frame prev

/-- A contour as consumed by the candidate-extraction loop of
`detect_fire`: its `cv2.contourArea` (a float, modelled as a rational)
and its `cv2.boundingRect` (x, y, w, h). -/
structure Contour where
  area : ℚ
  x : Nat
  y : Nat
  w : Nat
  h : Nat
deriving DecidableEq

/-- The positions (row, col) of the nonzero pixels of a mask of height
`H` and width `W`, in row-major order. -/
def nonzeroPositions (H W : Nat) (m : Mask) : List (Nat × Nat) :=
  ((List.range H).flatMap fun y => (List.range W).map fun x => (y, x)).filter
    fun p => m p.1 p.2 != 0

/-- 8-connectivity adjacency of two pixel positions (also true on equal
positions). -/
def adjacentPos (p q : Nat × Nat) : Bool :=
  (p.1 ≤ q.1 + 1) && (q.1 ≤ p.1 + 1) && (p.2 ≤ q.2 + 1) && (q.2 ≤ p.2 + 1)

/-- Fuel-bounded region growing: move every position of `rest` adjacent
to the component `comp` into the component, until saturation. -/
def growRegion : Nat → List (Nat × Nat) → List (Nat × Nat) →
    List (Nat × Nat) × List (Nat × Nat)
  | 0, comp, rest => (comp, rest)
  | Nat.succ fuel, comp, rest =>
    let found := rest.partition fun q => comp.any fun p => adjacentPos p q
    if found.1.isEmpty then (comp, rest)
    else growRegion fuel (comp ++ found.1) found.2

/-- Fuel-bounded decomposition of a list of positions into 8-connected
components. -/
def componentsAux : Nat → List (Nat × Nat) → List (List (Nat × Nat))
  | 0, _ => []
  | _, [] => []
  | Nat.succ fuel, p :: rest =>
    let g := growRegion (rest.length + 1) [p] rest
    g.1 :: componentsAux fuel g.2

/-- The minimum of a list of naturals (0 for the empty list). -/
def listMin : List Nat → Nat
  | [] => 0
  | a :: t => t.foldl Nat.min a

/-- The maximum of a list of naturals (0 for the empty list). -/
def listMax : List Nat → Nat
  | [] => 0
  | a :: t => t.foldl Nat.max a

/-- Contour attributes of a connected pixel region: pixel area and
bounding box. -/
def toContour (pts : List (Nat × Nat)) : Contour :=
  let ys := pts.map Prod.fst
  let xs := pts.map Prod.snd
  { area := (pts.length : ℚ)
    x := listMin xs
    y := listMin ys
    w := listMax xs - listMin xs + 1
    h := listMax ys - listMin ys + 1 }

/-- Modelled from the spec: `cv2.findContours(mask, RETR_EXTERNAL,
CHAIN_APPROX_SIMPLE)` together with `cv2.contourArea` and
`cv2.boundingRect` are external OpenCV routines not present in the
repository.  Per the spec (§2 Candidate Extractor, §3 Candidate Region,
Glossary), candidate regions are the connected components of the
combined mask's nonzero pixels, with pixel area and bounding-box
attributes.  In particular a mask with zero nonzero pixels yields no
contours. -/
def findContoursModel (H W : Nat) (m : Mask) : List Contour :=
  let ps := nonzeroPositions H W m
  (componentsAux ps.length ps).map toContour

/-- `aspect_ratio = float(w)/h if h > 0 else 0` of the candidate
extraction loop of `detect_fire`. -/
def aspectRatio (c : Contour) : ℚ := if 0 < c.h then (c.w : ℚ) / (c.h : ℚ) else 0

/-- The acceptance test of the candidate-extraction loop of
`detect_fire`: `area > 200` and `0.15 < aspect_ratio < 1.5`. -/
def acceptContour (c : Contour) : Bool :=
  decide ((200 : ℚ) < c.area) &&
    (decide ((3 / 20 : ℚ) < aspectRatio c) && decide (aspectRatio c < (3 / 2 : ℚ)))

/-- The `color_motion_fire` flag of `detect_fire`: starts `False` and is
set to `True` by every accepted contour. -/
def colorMotionFireOf (contours : List Contour) : Bool :=
  contours.foldl (fun acc c => if acceptContour c then true else acc) false

/-- The accepted candidate regions of `detect_fire` (the contours that
get a rectangle and label drawn). -/
def extractCandidates (contours : List Contour) : List Contour :=
  contours.filter acceptContour

/-- A YOLO detection box: class id (`int(box.cls[0])`), confidence
(`float(box.conf[0])`, modelled as a rational) and the `xyxy` bounding
box corners. -/
structure Box where
  cls : Nat
  conf : ℚ
  x1 : Nat
  y1 : Nat
  x2 : Nat
  y2 : Nat
deriving DecidableEq

/-- `COCO_PERSON_CLASS_ID = 0` of `detect_fire`. -/
def COCO_PERSON_CLASS_ID : Nat := 0

/-- `np.sum(fire_mask[y1:y2, x1:x2])`: the sum of the fire-color mask
over a detection's bounding box crop. -/
def cropMaskSum (m : Mask) (b : Box) : Nat :=
  ∑ y ∈ Finset.Ico b.y1 b.y2, ∑ x ∈ Finset.Ico b.x1 b.x2, m y x

/-- The `yolo_fire` flag of `detect_fire`: starts `False`; every box is
skipped when its class is the person class, and sets the flag when its
fire-color-mask crop has a positive sum. -/
def yoloFireOf (fireMask : Mask) (boxes : List Box) : Bool :=
  boxes.foldl
    (fun acc b =>
      if b.cls = COCO_PERSON_CLASS_ID then acc
      else if 0 < cropMaskSum fireMask b then true else acc)
    false

/-- The mutable fields of `FireDetectionSystem` read or written by the
embedded methods: `detection_threshold`, `prev_frame`,
`last_email_time`, `email_cooldown`, `consecutive_detections`.
(`fire_ranges` and `consecutive_threshold` are set in `__init__` and
never reassigned anywhere in the repository; they are embedded as the
constants `fire_ranges` and `consecutive_threshold`.) -/
structure DState where
  detectionThreshold : ℚ
  prevFrame : Option Img3
  lastEmailTime : Int
  emailCooldown : Int
  consecutiveDetections : Nat

/-- The state established by `FireDetectionSystem.__init__`:
`detection_threshold = 0.3`, `prev_frame = None`, `last_email_time = 0`,
`email_cooldown = 30`, `consecutive_detections = 0`. -/
def initState : DState :=
  { detectionThreshold := 3 / 10
    prevFrame := none
    lastEmailTime := 0
    emailCooldown := 30
    consecutiveDetections := 0 }

/-- `self.consecutive_threshold = 1` of `__init__`, never reassigned. -/
def consecutive_threshold : Nat := 1

/-- The combined mask computed inside `detect_fire` from the current
state's previous frame. -/
def combinedMaskOf (cv : CV) (s : DState) (frame : Img3) : Mask :=
  segment cv frame s.prevFrame

/-- `FireDetectionSystem.detect_fire`, embedded over a frame of height
`H` and width `W`.  `yoloModel` is the external YOLO collaborator
`self.model(frame, conf=self.detection_threshold, ...)`;
`Except.error` models the call raising.  Returns the per-frame decision
and the updated state (`self.prev_frame = frame.copy()`); drawing on the
annotated frame is presentation-only and omitted. -/
def detectFire (cv : CV) (yoloModel : Img3 → ℚ → Except Unit (List Box))
    (H W : Nat) (s : DState) (frame : Img3) : Except Unit (Bool × DState) :=
  let fireMask := fireColorMask cv frame
  let combined := combinedMaskOf cv s frame
  let contours := findContoursModel H W combined
  let colorMotionFire := colorMotionFireOf contours
  match yoloModel frame s.detectionThreshold with
  | Except.error e => Except.error e
  | Except.ok boxes =>
    let yoloFire := yoloFireOf fireMask boxes
    let fireDetected := colorMotionFire || yoloFire
    Except.ok (fireDetected, { s with prevFrame := some frame })

/-- `FireDetectionSystem.send_email_alert`, embedded.  `now` is
`time.time()` at entry, `last` is `self.last_email_time`, `cooldown` is
`self.email_cooldown`; `deliverOk` tells whether the SMTP delivery (the
external notification collaborator) succeeds.  Returns the new
`last_email_time` and whether a delegated notification call was made.
Early return when within the cooldown; on success
`self.last_email_time = current_time`; on any collaborator failure the
exception is caught (printed) and `last_email_time` is unchanged. -/
def send_email_alert (now last cooldown : Int) (deliverOk : Bool) : Int × Bool :=
  if now - last < cooldown then (last, false)
  else if deliverOk then (now, true) else (last, true)

/-- One iteration of the per-frame alert logic of
`FireDetectionSystem.run` (after `detect_fire` returned
`fireDetected`): increment or reset `consecutive_detections` and, when
the incremented counter reaches `consecutive_threshold`, call
`send_email_alert`.  The second component tells whether
`send_email_alert` was invoked. -/
def runStep (s : DState) (fireDetected : Bool) (now : Int) (deliverOk : Bool) :
    DState × Bool :=
  if fireDetected then
    let c := s.consecutiveDetections + 1
    if consecutive_threshold ≤ c then
      let r := send_email_alert now s.lastEmailTime s.emailCooldown deliverOk
      ({ s with consecutiveDetections := c, lastEmailTime := r.1 }, true)
    else ({ s with consecutiveDetections := c }, false)
  else ({ s with consecutiveDetections := 0 }, false)

/-- `FIRE_DEBOUNCE_FRAMES = 5` of `app.py`. -/
def FIRE_DEBOUNCE_FRAMES : Nat := 5

/-- `NO_FIRE_DEBOUNCE_FRAMES = 20` of `app.py`. -/
def NO_FIRE_DEBOUNCE_FRAMES : Nat := 20

/-- The mutable data of the live-detection callback of `app.py`: the
`_debounce` dict (`fire_count`, `no_fire_count`), the existence of the
trigger file (the externally visible alert-active signal read by the
polling fragment), and the detector's `last_email_time`. -/
structure AppState where
  fireCount : Nat
  noFireCount : Nat
  trigger : Bool
  lastEmailTime : Int
deriving DecidableEq

/-- The callback state at session start: both counters 0, no trigger
file, `last_email_time = 0`. -/
def initApp : AppState :=
  { fireCount := 0, noFireCount := 0, trigger := false, lastEmailTime := 0 }

/-- One invocation of `video_frame_callback` of `app.py`, after
`run_detection` returned `fireDetected`.  `emailConfig` is whether an
email configuration is present; `now` models `time.time()`; `cooldown`
is `detector.email_cooldown`; `deliverOk` is the SMTP collaborator
outcome.  On a positive decision: reset `no_fire_count`, increment
`fire_count`, and once `fire_count >= FIRE_DEBOUNCE_FRAMES` write the
trigger file and, when the email config is present and the cooldown
precheck `time.time() - last_email_time >= email_cooldown` passes, call
`send_email_alert`.  On a negative decision: reset `fire_count`,
increment `no_fire_count`, and once `no_fire_count >=
NO_FIRE_DEBOUNCE_FRAMES` remove the trigger file.  The second component
tells whether `send_email_alert` was invoked on this tick. -/
def callbackStep (emailConfig : Bool) (now cooldown : Int) (deliverOk : Bool)
    (s : AppState) (fireDetected : Bool) : AppState × Bool :=
  if fireDetected then
    let fc := s.fireCount + 1
    if FIRE_DEBOUNCE_FRAMES ≤ fc then
      if emailConfig && decide (cooldown ≤ now - s.lastEmailTime) then
        let r := send_email_alert now s.lastEmailTime cooldown deliverOk
        ({ s with fireCount := fc, noFireCount := 0, trigger := true,
                  lastEmailTime := r.1 }, true)
      else ({ s with fireCount := fc, noFireCount := 0, trigger := true }, false)
    else ({ s with fireCount := fc, noFireCount := 0 }, false)
  else
    let nc := s.noFireCount + 1
    if NO_FIRE_DEBOUNCE_FRAMES ≤ nc then
      ({ s with fireCount := 0, noFireCount := nc, trigger := false }, false)
    else ({ s with fireCount := 0, noFireCount := nc }, false)

/-- Folding `video_frame_callback` over a sequence of per-frame
decisions (the notification outcome of each tick is dropped). -/
def runCallback (emailConfig : Bool) (now cooldown : Int) (deliverOk : Bool)
    (s : AppState) (l : List Bool) : AppState :=
  l.foldl (fun st d => (callbackStep emailConfig now cooldown deliverOk st d).1) s

/-! ## Helper lemmas -/

theorem yoloFireOf_foldl_eq_any (m : Mask) (l : List Box) (acc : Bool) :
    l.foldl
      (fun acc b =>
        if b.cls = COCO_PERSON_CLASS_ID then acc
        else if 0 < cropMaskSum m b then true else acc)
      acc
    = (acc || l.any fun b =>
        !(b.cls == COCO_PERSON_CLASS_ID) && decide (0 < cropMaskSum m b)) := by
  induction l generalizing acc with
  | nil => simp
  | cons b t ih =>
    simp only [List.foldl_cons, List.any_cons, ih]
    by_cases h : b.cls = COCO_PERSON_CLASS_ID
    · simp [h]
    · by_cases h2 : 0 < cropMaskSum m b
      · simp [h, h2]
      · simp [h, h2]

theorem colorMotionFireOf_foldl_eq_any (l : List Contour) (acc : Bool) :
    l.foldl (fun acc c => if acceptContour c then true else acc) acc
    = (acc || l.any acceptContour) := by
  induction l generalizing acc with
  | nil => simp
  | cons c t ih =>
    simp only [List.foldl_cons, List.any_cons, ih]
    by_cases h : acceptContour c
    · simp [h]
    · simp [h]

theorem nonzeroPositions_eq_nil (H W : Nat) (m : Mask)
    (h : ∀ y x, y < H → x < W → m y x = 0) :
    nonzeroPositions H W m = [] := by
  unfold nonzeroPositions
  rw [List.filter_eq_nil_iff]
  intro p hp
  simp only [List.mem_flatMap, List.mem_map, List.mem_range] at hp
  obtain ⟨y, hy, x, hx, rfl⟩ := hp
  simp [h y x hy hx]

/-! ## Claim theorems -/

/-- C5: `send_email_alert` makes no delegated notification call when
`now - last_email_time < email_cooldown`; otherwise it delegates, and
updates `last_email_time` to `now` exactly when delivery succeeds while
a delivery failure leaves `last_email_time` unchanged (the exception is
caught, not raised).  Consequently a successful notification at `now`
followed by a second eligible tick at `t2` with `t2 - now < cooldown`
yields exactly one delegated call across the two ticks. -/
theorem send_email_alert_cooldown_gate :
    ∀ (now last cooldown : Int) (deliverOk : Bool),
      (now - last < cooldown → send_email_alert now last cooldown deliverOk = (last, false))
      ∧ (cooldown ≤ now - last →
          (send_email_alert now last cooldown deliverOk).2 = true
          ∧ (deliverOk = true → (send_email_alert now last cooldown deliverOk).1 = now)
          ∧ (deliverOk = false → (send_email_alert now last cooldown deliverOk).1 = last))
      ∧ (∀ t2 : Int, cooldown ≤ now - last → t2 - now < cooldown →
          (send_email_alert now last cooldown true).2 = true
          ∧ (send_email_alert t2 (send_email_alert now last cooldown true).1 cooldown
              deliverOk).2 = false) := by
  intro now last cooldown deliverOk
  refine ⟨fun h => ?_, fun h => ?_, fun t2 h1 h2 => ?_⟩
  · simp [send_email_alert, h]
  · have h' : ¬ now - last < cooldown := not_lt.mpr h
    cases deliverOk <;> simp [send_email_alert, h']
  · have h' : ¬ now - last < cooldown := not_lt.mpr h1
    refine ⟨by simp [send_email_alert, h'], ?_⟩
    simp [send_email_alert, h', h2]

/-- C5 witness: at `now = 100`, `last = 0`, `cooldown = 30`, a
successful delegated call happens, and a second tick at `t2 = 105`
(less than the cooldown later) is suppressed. -/
theorem send_email_alert_cooldown_gate_witness :
    ((30 : Int) ≤ 100 - 0) ∧ ((105 : Int) - 100 < 30)
    ∧ (send_email_alert 100 0 30 true).2 = true
    ∧ (send_email_alert 105 (send_email_alert 100 0 30 true).1 30 true).2 = false := by
  have h := (send_email_alert_cooldown_gate 100 0 30 true).2.2 105 (by decide) (by decide)
  exact ⟨by decide, by decide, h.1, h.2⟩

/-- C6: a detection box of the excluded person class never contributes
to `yolo_fire` regardless of mask overlap; a box whose fire-color-mask
crop sums to zero never contributes regardless of confidence; and
`yolo_fire` is true iff some non-person box has a positive mask sum
inside its bounding box. -/
theorem yolo_fire_characterization :
    ∀ (m : Mask) (boxes : List Box),
      (yoloFireOf m boxes = true ↔
        ∃ b ∈ boxes, b.cls ≠ COCO_PERSON_CLASS_ID ∧ 0 < cropMaskSum m b)
      ∧ ((∀ b ∈ boxes, b.cls = COCO_PERSON_CLASS_ID) → yoloFireOf m boxes = false)
      ∧ ((∀ b ∈ boxes, cropMaskSum m b = 0) → yoloFireOf m boxes = false) := by
  intro m boxes
  have key : yoloFireOf m boxes = true ↔
      ∃ b ∈ boxes, b.cls ≠ COCO_PERSON_CLASS_ID ∧ 0 < cropMaskSum m b := by
    unfold yoloFireOf
    rw [yoloFireOf_foldl_eq_any]
    simp
  refine ⟨key, fun h => ?_, fun h => ?_⟩
  · rw [Bool.eq_false_iff]
    intro hc
    obtain ⟨b, hb, hcls, _⟩ := key.mp hc
    exact hcls (h b hb)
  · rw [Bool.eq_false_iff]
    intro hc
    obtain ⟨b, hb, _, hpos⟩ := key.mp hc
    rw [h b hb] at hpos
    exact lt_irrefl 0 hpos

/-- A mask that is 255 everywhere (for witnesses). -/
def onesMask : Mask := fun _ _ => 255

/-- C6 witness: a single person-class box over a fully fire-colored
mask does not set `yolo_fire`, and a single non-person box over an
all-zero mask does not set it either. -/
theorem yolo_fire_characterization_witness :
    (∀ b ∈ [Box.mk 0 (1/2) 0 0 2 2], b.cls = COCO_PERSON_CLASS_ID)
    ∧ yoloFireOf onesMask [Box.mk 0 (1/2) 0 0 2 2] = false
    ∧ (∀ b ∈ [Box.mk 39 (9/10) 0 0 2 2], cropMaskSum zeroMask b = 0)
    ∧ yoloFireOf zeroMask [Box.mk 39 (9/10) 0 0 2 2] = false := by
  refine ⟨by decide, ?_, ?_, ?_⟩
  · exact (yolo_fire_characterization onesMask [Box.mk 0 (1/2) 0 0 2 2]).2.1 (by decide)
  · intro b hb
    simp only [List.mem_singleton] at hb
    subst hb
    decide
  · refine (yolo_fire_characterization zeroMask [Box.mk 39 (9/10) 0 0 2 2]).2.2 ?_
    intro b hb
    simp only [List.mem_singleton] at hb
    subst hb
    decide

/-- C7: the candidate extractor accepts a contour iff its area is
strictly greater than 200 and its aspect ratio `w/h` lies strictly
inside the open interval (0.15, 1.5); area at or below the threshold or
ratio at or outside either bound is rejected; and every mask with zero
nonzero pixels yields no contours, `color_motion_fire = false` and an
empty candidate list. -/
theorem candidate_extractor_filter :
    (∀ c : Contour, acceptContour c = true ↔
        ((200 : ℚ) < c.area ∧ (3 / 20 : ℚ) < aspectRatio c ∧ aspectRatio c < (3 / 2 : ℚ)))
    ∧ (∀ c : Contour, c.area ≤ 200 → acceptContour c = false)
    ∧ (∀ c : Contour,
        (aspectRatio c ≤ 3 / 20 ∨ (3 / 2 : ℚ) ≤ aspectRatio c) → acceptContour c = false)
    ∧ (∀ (H W : Nat) (m : Mask), (∀ y x, y < H → x < W → m y x = 0) →
        findContoursModel H W m = []
        ∧ colorMotionFireOf (findContoursModel H W m) = false
        ∧ extractCandidates (findContoursModel H W m) = []) := by
  have hiff : ∀ c : Contour, acceptContour c = true ↔
      ((200 : ℚ) < c.area ∧ (3 / 20 : ℚ) < aspectRatio c ∧ aspectRatio c < (3 / 2 : ℚ)) := by
    intro c
    unfold acceptContour
    simp [Bool.and_eq_true, decide_eq_true_iff, and_assoc]
  refine ⟨hiff, fun c hc => ?_, fun c hc => ?_, fun H W m hm => ?_⟩
  · rw [Bool.eq_false_iff]
    intro h
    exact absurd ((hiff c).mp h).1 (not_lt.mpr hc)
  · rw [Bool.eq_false_iff]
    intro h
    rcases hc with hc | hc
    · exact absurd ((hiff c).mp h).2.1 (not_lt.mpr hc)
    · exact absurd ((hiff c).mp h).2.2 (not_lt.mpr hc)
  · have hnil : findContoursModel H W m = [] := by
      unfold findContoursModel
      rw [nonzeroPositions_eq_nil H W m hm]
      rfl
    rw [hnil]
    exact ⟨rfl, rfl, rfl⟩

/-- C7 witness: the all-zero 3×3 mask yields no contours, a false
color-motion flag and no candidates, and a concrete contour of area 100
(at most the threshold) is rejected. -/
theorem candidate_extractor_filter_witness :
    (∀ y x, y < 3 → x < 3 → zeroMask y x = 0)
    ∧ findContoursModel 3 3 zeroMask = []
    ∧ colorMotionFireOf (findContoursModel 3 3 zeroMask) = false
    ∧ extractCandidates (findContoursModel 3 3 zeroMask) = []
    ∧ (Contour.mk 100 0 0 5 5).area ≤ 200
    ∧ acceptContour (Contour.mk 100 0 0 5 5) = false := by
  have h : ∀ y x, y < 3 → x < 3 → zeroMask y x = 0 := fun _ _ _ _ => rfl
  have h2 := candidate_extractor_filter.2.2.2 3 3 zeroMask h
  have h3 := candidate_extractor_filter.2.1 (Contour.mk 100 0 0 5 5) (by norm_num)
  exact ⟨h, h2.1, h2.2.1, h2.2.2, by norm_num, h3⟩

/-- C10: for every contour whose bounding box has height 0, the aspect
ratio is defined as 0, which lies outside the open acceptance interval,
so the region is rejected (and no division by zero happens). -/
theorem aspect_ratio_zero_height_guard :
    ∀ c : Contour, c.h = 0 → aspectRatio c = 0 ∧ acceptContour c = false := by
  intro c hc
  have hr : aspectRatio c = 0 := by simp [aspectRatio, hc]
  refine ⟨hr, ?_⟩
  have h1 : ¬ ((3 / 20 : ℚ) < 0) := by norm_num
  unfold acceptContour
  rw [hr]
  simp [h1]

/-- C10 witness: a concrete contour with height 0 (and large area) has
aspect ratio 0 and is rejected. -/
theorem aspect_ratio_zero_height_guard_witness :
    (Contour.mk 300 0 0 10 0).h = 0
    ∧ aspectRatio (Contour.mk 300 0 0 10 0) = 0
    ∧ acceptContour (Contour.mk 300 0 0 10 0) = false := by
  have h := aspect_ratio_zero_height_guard (Contour.mk 300 0 0 10 0) rfl
  exact ⟨rfl, h.1, h.2⟩

/-- C8: with a previous frame, the combined mask is the AND of the
fire-color mask with the motion mask obtained by thresholding the
single-channel conversion of the per-pixel absolute difference at the
fixed level 25 (of 255); without a previous frame (first tick) the
segmenter returns the fire-color mask unchanged.  The last three
conjuncts pin down that `absdiff3` is the channelwise per-pixel
absolute difference. -/
theorem segmenter_motion_combination :
    ∀ (cv : CV) (frame p : Img3) (y x : Nat),
      segment cv frame none = fireColorMask cv frame
      ∧ segment cv frame (some p) y x =
          Nat.land (fireColorMask cv frame y x)
            (if 25 < cv.cvtGray (absdiff3 frame p) y x then 255 else 0)
      ∧ (absdiff3 frame p y x).1 = (((frame y x).1 : Int) - ((p y x).1 : Int)).natAbs
      ∧ (absdiff3 frame p y x).2.1 =
          (((frame y x).2.1 : Int) - ((p y x).2.1 : Int)).natAbs
      ∧ (absdiff3 frame p y x).2.2 =
          (((frame y x).2.2 : Int) - ((p y x).2.2 : Int)).natAbs := by
  intro cv frame p y x
  exact ⟨rfl, rfl, rfl, rfl, rfl⟩

/-- C9: the segmenter is a pure, deterministic function of
(frame, previous_frame): the combined mask computed inside
`detect_fire` is identical for any two detector states that agree on
`prev_frame` (whatever their other mutable fields), and the only state
mutation `detect_fire` performs is `self.prev_frame = frame.copy()` —
a successful call returns the input state with only `prevFrame`
replaced. -/
theorem segmenter_purity :
    (∀ (cv : CV) (s1 s2 : DState) (frame : Img3),
        s1.prevFrame = s2.prevFrame →
        combinedMaskOf cv s1 frame = combinedMaskOf cv s2 frame)
    ∧ (∀ (cv : CV) (ym : Img3 → ℚ → Except Unit (List Box)) (H W : Nat)
        (s : DState) (frame : Img3) (b : Bool) (s2 : DState),
        detectFire cv ym H W s frame = Except.ok (b, s2) →
        s2 = { s with prevFrame := some frame }) := by
  constructor
  · intro cv s1 s2 frame h
    unfold combinedMaskOf
    rw [h]
  · intro cv ym H W s frame b s2 h
    unfold detectFire at h
    cases hy : ym frame s.detectionThreshold with
    | error e => rw [hy] at h; exact absurd h (by simp)
    | ok boxes =>
      rw [hy] at h
      simp only [Except.ok.injEq, Prod.mk.injEq] at h
      exact h.2.symm

/-- The identity/trivial instantiation of the OpenCV collaborator
structure, used by witnesses. -/
def cvId : CV :=
  { cvtHSV := id, morphOpen := id, morphClose := id, cvtGray := fun _ => zeroMask }

/-- The all-black frame, used by witnesses. -/
def frame0 : Img3 := fun _ _ => (0, 0, 0)

/-- C9 witness: two concrete states that differ in every field except
`prev_frame` (detection threshold, last email time, cooldown,
consecutive counter) produce bit-identical combined masks, and a
successful `detect_fire` call returns the state with only `prevFrame`
updated. -/
theorem segmenter_purity_witness :
    (initState.prevFrame =
      (DState.mk (1 / 2) none 77 60 9).prevFrame)
    ∧ combinedMaskOf cvId initState frame0 =
        combinedMaskOf cvId (DState.mk (1 / 2) none 77 60 9) frame0
    ∧ detectFire cvId (fun _ _ => Except.ok []) 1 1 initState frame0 =
        Except.ok (false, { initState with prevFrame := some frame0 }) := by
  refine ⟨rfl, segmenter_purity.1 cvId initState (DState.mk (1 / 2) none 77 60 9) frame0 rfl, rfl⟩

/-- C1: for any tick where the detector collaborator returns normally,
the per-frame decision of `detect_fire` is the logical OR of the
color-motion signal and the detector signal: the decision is true iff
at least one of the two signals is true (covering all four boolean
combinations). -/
theorem detect_fire_decision_is_or :
    ∀ (cv : CV) (ym : Img3 → ℚ → Except Unit (List Box)) (H W : Nat)
      (s : DState) (frame : Img3) (boxes : List Box),
      ym frame s.detectionThreshold = Except.ok boxes →
      detectFire cv ym H W s frame =
        Except.ok
          (colorMotionFireOf (findContoursModel H W (combinedMaskOf cv s frame))
              || yoloFireOf (fireColorMask cv frame) boxes,
           { s with prevFrame := some frame })
      ∧ ((colorMotionFireOf (findContoursModel H W (combinedMaskOf cv s frame))
            || yoloFireOf (fireColorMask cv frame) boxes) = true ↔
          (colorMotionFireOf (findContoursModel H W (combinedMaskOf cv s frame)) = true
            ∨ yoloFireOf (fireColorMask cv frame) boxes = true)) := by
  intro cv ym H W s frame boxes h
  constructor
  · unfold detectFire
    rw [h]
  · exact Bool.or_eq_true_iff

/-- C1 witness: with a detector that returns no boxes on the all-black
frame, `detect_fire` returns the OR of the two (here false) signals. -/
theorem detect_fire_decision_is_or_witness :
    ((fun (_ : Img3) (_ : ℚ) => (Except.ok [] : Except Unit (List Box))) frame0
        initState.detectionThreshold = Except.ok [])
    ∧ detectFire cvId (fun _ _ => Except.ok []) 2 2 initState frame0 =
        Except.ok
          (colorMotionFireOf (findContoursModel 2 2 (combinedMaskOf cvId initState frame0))
              || yoloFireOf (fireColorMask cvId frame0) [],
           { initState with prevFrame := some frame0 }) := by
  exact ⟨rfl,
    (detect_fire_decision_is_or cvId (fun _ _ => Except.ok []) 2 2 initState frame0 [] rfl).1⟩

/-- C4 counterexample: the claim says a detector error is recovered
locally (yolo_fire treated as false, decision still produced); in the
code the YOLO call is not wrapped in any try/except, so at this
concrete input the error propagates and no per-frame decision is
produced at all. -/
theorem detect_fire_detector_error_counterexample :
    detectFire cvId (fun _ _ => Except.error ()) 1 1 initState frame0 =
      Except.error () := rfl

/-- C4 amended: if the detector collaborator raises during a tick,
`detect_fire` propagates the error: the tick produces no per-frame
decision, the state is not updated, and the color-motion signal alone
is not used. -/
theorem detect_fire_detector_error_propagates :
    ∀ (cv : CV) (ym : Img3 → ℚ → Except Unit (List Box)) (H W : Nat)
      (s : DState) (frame : Img3) (e : Unit),
      ym frame s.detectionThreshold = Except.error e →
      detectFire cv ym H W s frame = Except.error e := by
  intro cv ym H W s frame e h
  unfold detectFire
  rw [h]

/-- C4 amended witness: a concrete erroring detector makes
`detect_fire` return the propagated error. -/
theorem detect_fire_detector_error_propagates_witness :
    ((fun (_ : Img3) (_ : ℚ) => (Except.error () : Except Unit (List Box))) frame0
        initState.detectionThreshold = Except.error ())
    ∧ detectFire cvId (fun _ _ => Except.error ()) 1 1 initState frame0 =
        Except.error () := by
  exact ⟨rfl,
    detect_fire_detector_error_propagates cvId (fun _ _ => Except.error ()) 1 1 initState
      frame0 () rfl⟩

/-! ## Debouncer lemmas -/

theorem callbackStep_true_proj (ec : Bool) (now cd : Int) (ok : Bool) (s : AppState) :
    (callbackStep ec now cd ok s true).1.fireCount = s.fireCount + 1
    ∧ (callbackStep ec now cd ok s true).1.noFireCount = 0
    ∧ (callbackStep ec now cd ok s true).1.trigger =
        (if FIRE_DEBOUNCE_FRAMES ≤ s.fireCount + 1 then true else s.trigger) := by
  unfold callbackStep
  by_cases h : FIRE_DEBOUNCE_FRAMES ≤ s.fireCount + 1
  · by_cases h2 : (ec && decide (cd ≤ now - s.lastEmailTime)) = true
    · simp [h, h2]
    · simp [h, h2]
  · simp [h]

theorem callbackStep_false_eq (ec : Bool) (now cd : Int) (ok : Bool) (s : AppState) :
    (callbackStep ec now cd ok s false).1 =
      { s with fireCount := 0, noFireCount := s.noFireCount + 1,
               trigger :=
                 if NO_FIRE_DEBOUNCE_FRAMES ≤ s.noFireCount + 1 then false
                 else s.trigger } := by
  unfold callbackStep
  by_cases h : NO_FIRE_DEBOUNCE_FRAMES ≤ s.noFireCount + 1
  · simp [h]
  · simp [h]

theorem runCallback_cons (ec : Bool) (now cd : Int) (ok : Bool) (s : AppState)
    (d : Bool) (l : List Bool) :
    runCallback ec now cd ok s (d :: l) =
      runCallback ec now cd ok (callbackStep ec now cd ok s d).1 l := rfl

theorem runCallback_replicate_true (ec : Bool) (now cd : Int) (ok : Bool) :
    ∀ (k : Nat) (s : AppState),
      (runCallback ec now cd ok s (List.replicate (k + 1) true)).fireCount =
          s.fireCount + (k + 1)
      ∧ (runCallback ec now cd ok s (List.replicate (k + 1) true)).noFireCount = 0
      ∧ (runCallback ec now cd ok s (List.replicate (k + 1) true)).trigger =
          (if FIRE_DEBOUNCE_FRAMES ≤ s.fireCount + (k + 1) then true else s.trigger) := by
  intro k
  induction k with
  | zero =>
    intro s
    have h := callbackStep_true_proj ec now cd ok s
    simpa [runCallback] using h
  | succ k ih =>
    intro s
    have hstep := callbackStep_true_proj ec now cd ok s
    have hrest := ih (callbackStep ec now cd ok s true).1
    rw [List.replicate_succ, runCallback_cons]
    refine ⟨?_, hrest.2.1, ?_⟩
    · rw [hrest.1, hstep.1]
      omega
    · rw [hrest.2.2, hstep.1, hstep.2.2]
      have harith : s.fireCount + 1 + (k + 1) = s.fireCount + (k + 1 + 1) := by omega
      rw [harith]
      by_cases hc : FIRE_DEBOUNCE_FRAMES ≤ s.fireCount + (k + 1 + 1)
      · simp [hc]
      · have hc2 : ¬ FIRE_DEBOUNCE_FRAMES ≤ s.fireCount + 1 := by omega
        simp [hc, hc2]

theorem runCallback_replicate_false (ec : Bool) (now cd : Int) (ok : Bool) :
    ∀ (k : Nat) (s : AppState),
      (runCallback ec now cd ok s (List.replicate (k + 1) false)).noFireCount =
          s.noFireCount + (k + 1)
      ∧ (runCallback ec now cd ok s (List.replicate (k + 1) false)).fireCount = 0
      ∧ (runCallback ec now cd ok s (List.replicate (k + 1) false)).trigger =
          (if NO_FIRE_DEBOUNCE_FRAMES ≤ s.noFireCount + (k + 1) then false
           else s.trigger) := by
  intro k
  induction k with
  | zero =>
    intro s
    simp only [List.replicate_succ, List.replicate_zero, runCallback_cons]
    rw [callbackStep_false_eq]
    simp [runCallback]
  | succ k ih =>
    intro s
    have hrest := ih (callbackStep ec now cd ok s false).1
    rw [List.replicate_succ, runCallback_cons]
    refine ⟨?_, hrest.2.1, ?_⟩
    · rw [hrest.1, callbackStep_false_eq]
      show s.noFireCount + 1 + (k + 1) = s.noFireCount + (k + 1 + 1)
      omega
    · rw [hrest.2.2, callbackStep_false_eq]
      show (if NO_FIRE_DEBOUNCE_FRAMES ≤ s.noFireCount + 1 + (k + 1) then false
            else if NO_FIRE_DEBOUNCE_FRAMES ≤ s.noFireCount + 1 then false
                 else s.trigger) =
          (if NO_FIRE_DEBOUNCE_FRAMES ≤ s.noFireCount + (k + 1 + 1) then false
           else s.trigger)
      have harith : s.noFireCount + 1 + (k + 1) = s.noFireCount + (k + 1 + 1) := by omega
      rw [harith]
      by_cases hc : NO_FIRE_DEBOUNCE_FRAMES ≤ s.noFireCount + (k + 1 + 1)
      · simp [hc]
      · have hc2 : ¬ NO_FIRE_DEBOUNCE_FRAMES ≤ s.noFireCount + 1 := by omega
        simp [hc, hc2]

theorem runCallback_true_trigger_from_init (ec : Bool) (now cd : Int) (ok : Bool)
    (n : Nat) (hn : 1 ≤ n) :
    (runCallback ec now cd ok initApp (List.replicate n true)).trigger =
      (if FIRE_DEBOUNCE_FRAMES ≤ n then true else false) := by
  obtain ⟨k, rfl⟩ : ∃ k, n = k + 1 := ⟨n - 1, by omega⟩
  have h := (runCallback_replicate_true ec now cd ok k initApp).2.2
  rw [h]
  simp [initApp]

theorem runCallback_false_trigger_from_clearcount_zero (ec : Bool) (now cd : Int)
    (ok : Bool) (s : AppState) (hs : s.noFireCount = 0) (n : Nat) (hn : 1 ≤ n) :
    (runCallback ec now cd ok s (List.replicate n false)).trigger =
      (if NO_FIRE_DEBOUNCE_FRAMES ≤ n then false else s.trigger) := by
  obtain ⟨k, rfl⟩ : ∃ k, n = k + 1 := ⟨n - 1, by omega⟩
  have h := (runCallback_replicate_false ec now cd ok k s).2.2
  rw [h, hs]
  simp

/-- C2: the alert debouncer of `video_frame_callback` is an
asymmetric-hysteresis state machine: from the initial state, fewer than
`FIRE_DEBOUNCE_FRAMES` consecutive positive decisions leave the trigger
off; exactly `FIRE_DEBOUNCE_FRAMES` positives turn it on on that tick,
and it stays on while positives continue; from any triggered state with
a zero clear counter, fewer than `NO_FIRE_DEBOUNCE_FRAMES` consecutive
negatives leave it on and exactly `NO_FIRE_DEBOUNCE_FRAMES` negatives
turn it off; the clear threshold (20) is strictly larger than the fire
threshold (5); and each counter is reset to 0 whenever the opposite
signal is observed. -/
theorem callback_debounce_hysteresis :
    ∀ (ec : Bool) (now cd : Int) (ok : Bool),
      (∀ n, n < FIRE_DEBOUNCE_FRAMES →
        (runCallback ec now cd ok initApp (List.replicate n true)).trigger = false)
      ∧ (runCallback ec now cd ok initApp
          (List.replicate FIRE_DEBOUNCE_FRAMES true)).trigger = true
      ∧ (∀ m, (runCallback ec now cd ok initApp
          (List.replicate (FIRE_DEBOUNCE_FRAMES + m) true)).trigger = true)
      ∧ (∀ s : AppState, s.trigger = true → s.noFireCount = 0 →
          (∀ k, k < NO_FIRE_DEBOUNCE_FRAMES →
            (runCallback ec now cd ok s (List.replicate k false)).trigger = true)
          ∧ (runCallback ec now cd ok s
              (List.replicate NO_FIRE_DEBOUNCE_FRAMES false)).trigger = false)
      ∧ FIRE_DEBOUNCE_FRAMES < NO_FIRE_DEBOUNCE_FRAMES
      ∧ (∀ s : AppState,
          (callbackStep ec now cd ok s true).1.noFireCount = 0
          ∧ (callbackStep ec now cd ok s false).1.fireCount = 0) := by
  intro ec now cd ok
  refine ⟨?_, ?_, ?_, ?_, by decide, fun s => ⟨(callbackStep_true_proj ec now cd ok s).2.1, ?_⟩⟩
  · intro n hn
    cases n with
    | zero => rfl
    | succ k =>
      rw [runCallback_true_trigger_from_init ec now cd ok (k + 1) (by omega)]
      exact if_neg (by omega)
  · rw [runCallback_true_trigger_from_init ec now cd ok FIRE_DEBOUNCE_FRAMES (by decide)]
    exact if_pos (le_refl _)
  · intro m
    have hF : 1 ≤ FIRE_DEBOUNCE_FRAMES := by decide
    rw [runCallback_true_trigger_from_init ec now cd ok (FIRE_DEBOUNCE_FRAMES + m) (by omega)]
    exact if_pos (by omega)
  · intro s hst hs0
    constructor
    · intro k hk
      cases k with
      | zero => exact hst
      | succ j =>
        rw [runCallback_false_trigger_from_clearcount_zero ec now cd ok s hs0 (j + 1)
          (by omega)]
        rw [if_neg (by omega)]
        exact hst
    · rw [runCallback_false_trigger_from_clearcount_zero ec now cd ok s hs0
        NO_FIRE_DEBOUNCE_FRAMES (by decide)]
      exact if_pos (le_refl _)
  · rw [callbackStep_false_eq]

/-- C2 witness: from a concrete triggered state, 3 consecutive
negatives (fewer than the clear threshold) leave the trigger on, and
exactly `NO_FIRE_DEBOUNCE_FRAMES` negatives turn it off. -/
theorem callback_debounce_hysteresis_witness :
    (AppState.mk 7 0 true 0).trigger = true
    ∧ (AppState.mk 7 0 true 0).noFireCount = 0
    ∧ (3 : Nat) < NO_FIRE_DEBOUNCE_FRAMES
    ∧ (runCallback false 0 30 true (AppState.mk 7 0 true 0)
        (List.replicate 3 false)).trigger = true
    ∧ (runCallback false 0 30 true (AppState.mk 7 0 true 0)
        (List.replicate NO_FIRE_DEBOUNCE_FRAMES false)).trigger = false := by
  have h := (callback_debounce_hysteresis false 0 30 true).2.2.2.1
    (AppState.mk 7 0 true 0) rfl rfl
  exact ⟨rfl, rfl, by decide, h.1 3 (by decide), h.2⟩

/-- C3 counterexample: on the very first positive tick of the app
callback — with an email configuration present and the cooldown long
expired, so the tick is eligible in every other respect — no
notification attempt is made, because the debounce counter (1) is still
below `FIRE_DEBOUNCE_FRAMES` (5).  This refutes the claim that every
positive tick invokes the notifier gate regardless of the debounce
counter. -/
theorem callback_notify_gated_counterexample :
    ((30 : Int) ≤ 1000 - initApp.lastEmailTime)
    ∧ (callbackStep true 1000 30 true initApp true).2 = false := ⟨by decide, rfl⟩

/-- C3 amended: a notification attempt is made on a positive tick only
when the incremented debounce counter has reached its threshold.  In
`FireDetectionSystem.run` the threshold is `consecutive_threshold = 1`,
so there every positive tick does invoke `send_email_alert` (and no
negative tick does); in the `app.py` callback the gate is invoked
exactly when the incremented `fire_count` has reached
`FIRE_DEBOUNCE_FRAMES` and an email config is present and the cooldown
precheck passes — the fire-debounce threshold gates the notification
attempt as well as the alert trigger. -/
theorem notify_attempt_gating :
    (∀ (s : DState) (now : Int) (ok : Bool),
        (runStep s true now ok).2 = true ∧ (runStep s false now ok).2 = false)
    ∧ (∀ (ec : Bool) (now cd : Int) (ok : Bool) (s : AppState),
        (callbackStep ec now cd ok s true).2 =
          (decide (FIRE_DEBOUNCE_FRAMES ≤ s.fireCount + 1)
            && (ec && decide (cd ≤ now - s.lastEmailTime)))
        ∧ (callbackStep ec now cd ok s false).2 = false) := by
  constructor
  · intro s now ok
    constructor
    · unfold runStep
      have h : consecutive_threshold ≤ s.consecutiveDetections + 1 := by
        show 1 ≤ s.consecutiveDetections + 1
        omega
      simp [h]
    · rfl
  · intro ec now cd ok s
    constructor
    · unfold callbackStep
      by_cases h : FIRE_DEBOUNCE_FRAMES ≤ s.fireCount + 1
      · by_cases h2 : (ec && decide (cd ≤ now - s.lastEmailTime)) = true
        · simp [h, h2]
        · rw [Bool.not_eq_true] at h2
          simp [h, h2]
      · simp [h]
    · unfold callbackStep
      by_cases h : NO_FIRE_DEBOUNCE_FRAMES ≤ s.noFireCount + 1
      · simp [h]
      · simp [h]

end FireAlert
